import Mathlib

/-!
Shallow embedding of the paginated PDF layout engine of the TJC-REVISED
repository (`src/tjsims/src/utils/pdfGenerator.js`) and of the sales-report
data preparation in `ReportsController.getSalesReport`
(`src/unnamed/part_000`).

Modelling conventions:
* Coordinates and lengths are exact integers in hundredths of the jsPDF
  unit (the report generators use default mm pages, the receipt an A4 page
  in points).  A source literal `v` appears as `u v = v * 100`; the only
  fractional source constants are `9.6` (the receipt's small line height,
  here `960`), `595.28` and `841.89` (the A4 point size, here `59528` and
  `84189`).  All layout arithmetic of the source is exact in this scale.
* Money amounts are modelled in integer cents, so the two-fraction-digit
  rendering of `toLocaleString(..., {minimumFractionDigits: 2,
  maximumFractionDigits: 2})` is the exact cents rendering.
* A possibly `undefined`/`null`/non-numeric numeric field is `Option Int`,
  and the source coercion `Number(x) || 0` (or `x || 0`) is `jsInt`.
* Optional string fields are `Option String`; JS `x || dflt` (which treats
  the empty string as falsy) is `jsOrS`.
* The jsPDF drawing surface is modelled as a list of draw commands `Cmd`
  tagged with the page they are placed on.  Styling calls (`setFont`,
  `setFontSize`, colours, alignment flags) carry no layout state that the
  claims mention and are not recorded.
* Locale-dependent date rendering (`toLocaleDateString`) is an external
  collaborator; a date string is carried through unchanged, with the
  falsy-input fallback `"N/A"` of the source `formatDate` preserved.
* `doc.splitTextToSize` (text wrapping, a Drawing Surface primitive) is a
  parameter `wrap : String → Int → List String` of the receipt renderer.
-/

namespace TJC

/-- Scale a source coordinate literal into hundredths of a jsPDF unit. -/
def u (n : Int) : Int := n * 100

/-- JS coercion `Number(x) || 0` (and `x || 0`) on an optional numeric
field: an absent / null / non-numeric value becomes `0`. -/
def jsInt (a : Option Int) : Int := a.getD 0

/-- JS `x || dflt` on an optional string: `undefined`, `null` and the empty
string are falsy and fall back to `dflt`. -/
def jsOrS (a : Option String) (d : String) : String :=
  match a with
  | none => d
  | some s => if s = "" then d else s

/-- Two-digit zero-padded decimal rendering of `n % 100`. -/
def pad2 (n : Nat) : String :=
  String.mk [Nat.digitChar (n / 10 % 10), Nat.digitChar (n % 10)]

/-- Insert a comma after every three characters of a reversed digit list
(helper for thousands grouping). -/
def groupRev : List Char → List Char
  | [] => []
  | [a] => [a]
  | [a, b] => [a, b]
  | [a, b, c] => [a, b, c]
  | a :: b :: c :: d :: rest => a :: b :: c :: ',' :: groupRev (d :: rest)

/-- Thousands grouping of a digit string, as `toLocaleString('en-US')` /
`toLocaleString('en-PH')` produce for the integer part. -/
def groupDigits (s : String) : String :=
  String.mk ((groupRev s.data.reverse).reverse)

/-- Decimal rendering of a cent amount with exactly two fraction digits and
thousands separators. -/
def centsToString (c : Int) : String :=
  (if c < 0 then "-" else "") ++ groupDigits (toString (c.natAbs / 100)) ++
    "." ++ pad2 (c.natAbs % 100)

/-- Embedding of `formatCurrency` (pdfGenerator.js, lines 21-24):
`Number(amount) || 0`, rendered with exactly two fraction digits and
thousands separators under the fixed `en-US` locale, prefixed `"PHP "`.
Amounts are in integer cents. -/
def formatCurrency (amount : Option Int) : String :=
  "PHP " ++ centsToString (jsInt amount)

/-- Embedding of the receipt-local `peso` helper (lines 546-550): same
fixed-locale two-decimal rendering (`en-PH`), prefixed `"PHP "`. -/
def peso (n : Option Int) : String :=
  "PHP " ++ centsToString (jsInt n)

/-- Rounded division of a cent total by a transaction count, half away
from zero: the displayed value of `totalRevenue / totalTransactions`. -/
def roundHalfDiv (a : Int) (n : Nat) : Int :=
  if 0 ≤ a then (2 * a + n) / (2 * n) else -((2 * (-a) + n) / (2 * n))

/-- A draw command on the abstract drawing surface, tagged with the page it
is emitted on.  `newPage p` records the transition onto page `p`. -/
inductive Cmd where
  | newPage (page : Nat)
  | textC (page : Nat) (s : String) (x y : Int)
  | lineC (page : Nat) (x1 y1 x2 y2 : Int)
  | rectC (page : Nat) (x y w h : Int)
  | imageC (page : Nat) (x y w h : Int)
deriving DecidableEq, Repr

/-- The page a command is placed on. -/
def Cmd.page : Cmd → Nat
  | newPage p => p
  | textC p _ _ _ => p
  | lineC p _ _ _ _ => p
  | rectC p _ _ _ _ => p
  | imageC p _ _ _ _ => p

/-- Whether a command is a page transition. -/
def Cmd.isNewPage : Cmd → Bool
  | newPage _ => true
  | _ => false

/-! ## Sales report generator (`generateSalesReportPDF`, lines 60-247) -/

/-- One element of an order's `items` array as the generator receives it
(prices in cents, quantity a count). -/
structure SaleItem where
  productName : String
  quantity : Option Int
  unitPrice : Option Int
  totalPrice : Option Int
deriving DecidableEq, Repr

/-- One element of `salesData` as the generator receives it. -/
structure SalesOrder where
  orderId : String
  customerName : Option String
  orderDate : Option String
  status : Option String
  totalAmount : Option Int
  items : List SaleItem
deriving DecidableEq, Repr

/-- `allowedStatuses.includes(order.status)` with
`allowedStatuses = ['Completed', 'Partially Returned', 'Pending', null]`. -/
def statusAllowed (s : Option String) : Bool :=
  s == some "Completed" || s == some "Partially Returned" ||
    s == some "Pending" || s == none

/-- Embedding of `formatDate` (lines 27-34): falsy input gives `"N/A"`;
the locale rendering of a present date string is abstracted as the
identity (no claim inspects rendered date text). -/
def formatDateEmb (d : Option String) : String := jsOrS d "N/A"

/-- One row of `flattenedData` (lines 90-100). -/
structure FlatRow where
  orderId : String
  customerName : Option String
  orderDate : String
  productName : String
  quantity : Int
  unitPrice : Int
  totalPrice : Int
deriving DecidableEq, Repr

/-- The per-order step of `flattenedData` (lines 90-100): items pass the
status filter as a block and are mapped to rows with coerced numerics. -/
def flattenOrder (o : SalesOrder) : List FlatRow :=
  (o.items.filter (fun _ => statusAllowed o.status)).map (fun it =>
    { orderId := o.orderId
      customerName := o.customerName
      orderDate := formatDateEmb o.orderDate
      productName := it.productName
      quantity := jsInt it.quantity
      unitPrice := jsInt it.unitPrice
      totalPrice := jsInt it.totalPrice })

/-- `flattenedData = filteredOrders.flatMap(...)`. -/
def flattenSales (orders : List SalesOrder) : List FlatRow :=
  (orders.map flattenOrder).flatten

/-- Product-name truncation of the sales report (lines 152-155): over 30
characters, keep the first 30 and append `"..."`. -/
def salesProductNameText (s : String) : String :=
  if 30 < s.length then s.take 30 ++ "..." else s

/-- Product-name truncation of the inventory report (lines 322-325):
35-character limit. -/
def inventoryProductNameText (s : String) : String :=
  if 35 < s.length then s.take 35 ++ "..." else s

/-- Customer-name cell of the returns report (lines 455-457):
`item.customer_name?.length > 20 ? ...substring(0,20) + '...'
: item.customer_name || 'N/A'`. -/
def returnsCustomerText (s : Option String) : String :=
  match s with
  | none => "N/A"
  | some t => if 20 < t.length then t.take 20 ++ "..." else jsOrS (some t) "N/A"

/-- Return-reason cell of the returns report (lines 459-461): 15-character
limit with the same `|| 'N/A'` fallback. -/
def returnsReasonText (s : Option String) : String :=
  match s with
  | none => "N/A"
  | some t => if 15 < t.length then t.take 15 ++ "..." else jsOrS (some t) "N/A"

/-- Page width of the report generators (jsPDF default A4 portrait, mm). -/
def salesPageWidth : Int := u 210

/-- The column-header block of `drawTableHeaders` (lines 114-123): five
labels at the fixed column x-positions and the separator line beneath. -/
def salesHeaderBlock (p : Nat) (y : Int) : List Cmd :=
  [Cmd.textC p "Date" (u 15) y,
   Cmd.textC p "Product Name" (u 50) y,
   Cmd.textC p "Qty" (u 110) y,
   Cmd.textC p "Unit Price" (u 130) y,
   Cmd.textC p "Total" (u 160) y,
   Cmd.lineC p (u 15) (y + u 3) (salesPageWidth - u 15) (y + u 3)]

/-- Record of one emitted data row: page, baseline y and the coerced
`totalPrice` rendered in the Total column. -/
structure ERow where
  page : Nat
  y : Int
  amt : Int
deriving DecidableEq, Repr

/-- State returned by the row loop. -/
structure SalesLoopOut where
  y : Int
  page : Nat
  cmds : List Cmd
  grandTotal : Int
  rows : List ERow
deriving Repr

/-- Draw commands of one data row (lines 146-165): alternating fill on
even indices, then the five cell texts. -/
def salesRowCmds (p : Nat) (idx : Nat) (r : FlatRow) (y : Int) : List Cmd :=
  (if idx % 2 = 0 then [Cmd.rectC p (u 15) (y - u 4) (salesPageWidth - u 30) (u 6)] else []) ++
  [Cmd.textC p r.orderDate (u 15) y,
   Cmd.textC p (salesProductNameText r.productName) (u 50) y,
   Cmd.textC p (toString r.quantity) (u 110) y,
   Cmd.textC p (formatCurrency (some r.unitPrice)) (u 130) y,
   Cmd.textC p (formatCurrency (some r.totalPrice)) (u 160) y]

/-- The row loop of `generateSalesReportPDF` (lines 134-166): before each
row, if `yPosition > 270` a new page is started, y resets to 20 and the
column-header block is redrawn (after which y is 28); the row is drawn,
its `totalPrice` added to the grand total, and y advances by 6. -/
def salesRowsLoop : List FlatRow → Nat → Int → Nat → Int → SalesLoopOut
  | [], _, y, p, gt => ⟨y, p, [], gt, []⟩
  | r :: rest, idx, y, p, gt =>
    let broke := u 270 < y
    let p1 := if broke then p + 1 else p
    let y1 := if broke then u 28 else y
    let brkCmds := if broke then Cmd.newPage p1 :: salesHeaderBlock p1 (u 20) else []
    let out := salesRowsLoop rest (idx + 1) (y1 + u 6) p1 (gt + r.totalPrice)
    ⟨out.y, out.page, brkCmds ++ salesRowCmds p1 idx r y1 ++ out.cmds,
     out.grandTotal, ⟨p1, y1, r.totalPrice⟩ :: out.rows⟩

/-- `productCounts[name] = (productCounts[name] || 0) + quantity`—an
insertion-ordered tally, as JS object iteration order is insertion order
for non-index string keys. -/
def addCount : List (String × Int) → String → Int → List (String × Int)
  | [], k, q => [(k, q)]
  | (k1, q1) :: t, k, q =>
    if k1 = k then (k1, q1 + q) :: t else (k1, q1) :: addCount t k q

/-- The `productCounts` tally built from `flattenedData` (lines 194-197). -/
def buildCounts (rows : List FlatRow) : List (String × Int) :=
  rows.foldl (fun l r => addCount l r.productName r.quantity) []

/-- First-match association lookup (JS property read). -/
def lookupCount : List (String × Int) → String → Option Int
  | [], _ => none
  | (k1, q1) :: t, k => if k1 = k then some q1 else lookupCount t k

/-- JS `>` on possibly-`undefined` operands: any comparison involving
`undefined` is false. -/
def jsGtI (a b : Option Int) : Bool :=
  match a, b with
  | some x, some y => y < x
  | _, _ => false

/-- Embedding of line 198:
`Object.keys(productCounts).reduce((a, b) => productCounts[a] >
productCounts[b] ? a : b, 'N/A')`. -/
def bestSellingOf (counts : List (String × Int)) : String :=
  (counts.map Prod.fst).foldl
    (fun a b => if jsGtI (lookupCount counts a) (lookupCount counts b) then a else b)
    "N/A"

/-- Result of a sales-report render: the command list plus the values the
summary block prints. -/
structure SalesResult where
  cmds : List Cmd
  rows : List ERow
  flattened : List FlatRow
  grandTotal : Int
  grandTotalText : String
  totalRevenue : Int
  totalItems : Int
  totalTransactions : Nat
  avgTransactionValue : Int
  bestSellingProduct : String
  pageCount : Nat
deriving Repr

/-- Footer of one page (lines 234-244). -/
def salesFooterFor (adminName genDate : String) (pageCount i : Nat) : List Cmd :=
  [Cmd.textC i ("Generated by: " ++ adminName) (u 15) (u 285),
   Cmd.textC i ("Report Generated: " ++ genDate) (u 15) (u 289),
   Cmd.textC i ("Page " ++ toString i ++ " of " ++ toString pageCount)
     (salesPageWidth - u 15) (u 285)]

/-- The footer pass over every produced page (lines 232-244). -/
def salesFooters (adminName genDate : String) (pageCount : Nat) : List Cmd :=
  ((List.range pageCount).map
    (fun j => salesFooterFor adminName genDate pageCount (j + 1))).flatten

/-- Embedding of `generateSalesReportPDF` (lines 60-247).  `hasLogo`
models whether the asynchronous logo load succeeded, `periodText` the
`formatPeriodText` output and `genDate` the current-date text (both
locale renderings of external collaborators). -/
def salesRender (hasLogo : Bool) (salesData : Option (List SalesOrder))
    (periodText adminName genDate : String) : SalesResult :=
  let yTitle := if hasLogo then u 20 + u 27 else u 20
  let logoCmds := if hasLogo then [Cmd.imageC 1 (u 90) (u 20) (u 30) (u 22)] else []
  let yPeriod := yTitle + u 7
  let yHead := yPeriod + u 10
  let headCmds :=
    [Cmd.textC 1 "Sales Report" (u 105) yTitle,
     Cmd.textC 1 ("Period: " ++ periodText) (u 105) yPeriod] ++
    salesHeaderBlock 1 yHead
  let filteredOrders := salesData.getD []
  let flat := flattenSales filteredOrders
  let lo := salesRowsLoop flat 0 (yHead + u 8) 1 0
  let pGT := if u 265 < lo.y then lo.page + 1 else lo.page
  let yGT0 := if u 265 < lo.y then u 20 else lo.y
  let gtBrk := if u 265 < lo.y then [Cmd.newPage pGT] else []
  let yGT2 := yGT0 + u 2 + u 6
  let gtText := formatCurrency (some lo.grandTotal)
  let gtCmds := gtBrk ++
    [Cmd.lineC pGT (u 15) (yGT0 + u 2) (salesPageWidth - u 15) (yGT0 + u 2),
     Cmd.textC pGT "Grand Total:" (u 130) yGT2,
     Cmd.textC pGT gtText (u 160) yGT2]
  let ySum0 := yGT2 + u 10
  let relevantOrders := filteredOrders.filter (fun o => statusAllowed o.status)
  let totalRevenue := (relevantOrders.map (fun o => jsInt o.totalAmount)).sum
  let totalItems := (flat.map (fun r => r.quantity)).sum
  let totalTransactions := relevantOrders.length
  let avg := if 0 < totalTransactions then roundHalfDiv totalRevenue totalTransactions else 0
  let best := bestSellingOf (buildCounts flat)
  let pS := if u 280 < ySum0 + u 35 then pGT + 1 else pGT
  let yS := if u 280 < ySum0 + u 35 then u 30 else ySum0
  let sBrk := if u 280 < ySum0 + u 35 then [Cmd.newPage pS] else []
  let sumCmds := sBrk ++
    [Cmd.rectC pS (u 15) (yS - u 5) (salesPageWidth - u 30) (u 8),
     Cmd.textC pS "Sales Summary" (u 105) yS,
     Cmd.textC pS ("Total Revenue: " ++ formatCurrency (some totalRevenue)) (u 20) (yS + u 8),
     Cmd.textC pS ("Avg Transaction Value: " ++ formatCurrency (some avg)) (u 115) (yS + u 8),
     Cmd.textC pS ("Total Items Sold: " ++ toString totalItems) (u 20) (yS + u 14),
     Cmd.textC pS ("Best Selling Product: " ++ best) (u 115) (yS + u 14),
     Cmd.textC pS ("Total Transactions: " ++ toString totalTransactions) (u 20) (yS + u 20)]
  let fCmds := salesFooters adminName genDate pS
  { cmds := logoCmds ++ headCmds ++ lo.cmds ++ gtCmds ++ sumCmds ++ fCmds
    rows := lo.rows
    flattened := flat
    grandTotal := lo.grandTotal
    grandTotalText := gtText
    totalRevenue := totalRevenue
    totalItems := totalItems
    totalTransactions := totalTransactions
    avgTransactionValue := avg
    bestSellingProduct := best
    pageCount := pS }

/-- The LAST key attaining the maximum count under a count function: the
recursion keeps the later candidate on ties. -/
def lastArgmax (c : String → Int) : List String → Option String
  | [] => none
  | k :: ks =>
    match lastArgmax c ks with
    | none => some k
    | some m => if c m < c k then some k else some m

/-- The count of a key in a tally (`0` when absent). -/
def cVal (counts : List (String × Int)) (k : String) : Int :=
  (lookupCount counts k).getD 0

/-- `lastArgmax` seeded with a default accumulator (the shape of a left
fold whose ties go to the newcomer). -/
def lastArgmaxD (c : String → Int) (acc : String) (ks : List String) : String :=
  match lastArgmax c ks with
  | none => acc
  | some m => if c m < c acc then acc else m

/-- Every page transition in a command segment is immediately followed by
the six commands of the redrawn column-header block at the top margin. -/
def headerAfterNewPage : List Cmd → Bool
  | [] => true
  | Cmd.newPage p :: rest =>
    decide (rest.take 6 = salesHeaderBlock p (u 20)) && headerAfterNewPage rest
  | _ :: rest => headerAfterNewPage rest

/-- Whether a command is a text placement of the given string. -/
def Cmd.isTextOf (c : Cmd) (s : String) : Bool :=
  match c with
  | Cmd.textC _ t _ _ => t == s
  | _ => false

/-! ## Receipt generator (`generateSaleReceipt`, lines 523-718) -/

/-- One receipt line item.  The source's field-name fallbacks
(`it.name || it.product_name || it.productName`, `it.serialNumbers ||
it.serial_numbers`, `it.price || it.unitPrice`) are collapsed into one
field each. -/
structure ReceiptItem where
  name : Option String
  serialNumbers : List String
  quantity : Option Int
  price : Option Int
deriving DecidableEq, Repr

/-- The destructured parameter object of `generateSaleReceipt`.
`dateText` models the locale rendering of `createdAt` and `cashierName`
the `localStorage` lookup, both external to the layout engine. -/
structure ReceiptInput where
  saleNumber : String
  customerName : Option String
  items : List ReceiptItem
  totalAmount : Option Int
  paymentMethod : String
  tenderedAmount : Int
  changeAmount : Int
  address : Option String
  shippingOption : String
  hasLogo : Bool
  dateText : String
  cashierName : String
deriving Repr

/-- A4 point width `595.28`, in hundredths. -/
def rPageWidth : Int := 59528

/-- A4 point height `841.89`, in hundredths. -/
def rPageHeight : Int := 84189

/-- Receipt margin (40 pt). -/
def rMargin : Int := u 40

/-- `contentWidth = pageWidth - margin * 2`. -/
def rContentWidth : Int := rPageWidth - u 80

/-- `LINE_HEIGHT = 1.2 * 10`. -/
def rLineHeight : Int := u 12

/-- `SMALL_LINE_HEIGHT = 1.2 * 8 = 9.6`, in hundredths. -/
def rSmallLineHeight : Int := 960

/-- `panelWidth = contentWidth / 2 - 10`. -/
def rPanelWidth : Int := rContentWidth / 2 - u 10

/-- `panel2_X = margin + contentWidth / 2 + 10`. -/
def panel2X : Int := rMargin + rContentWidth / 2 + u 10

/-- `colAmt_Right = pageWidth - margin - 5`. -/
def colAmtRight : Int := rPageWidth - rMargin - u 5

/-- `colUnit_Right = colAmt_Right - 90`. -/
def colUnitRight : Int := colAmtRight - u 90

/-- `colQty_Center = colUnit_Right - 45`. -/
def colQtyCenter : Int := colUnitRight - u 45

/-- `colName_Left = margin + 5`. -/
def colNameLeft : Int := rMargin + u 5

/-- `colName_Width = colQty_Center - 25 - colName_Left`. -/
def colNameWidth : Int := colQtyCenter - u 25 - colNameLeft

/-- `minRowHeight = 25`. -/
def rMinRowHeight : Int := u 25

/-- `totalLabelX = contentWidth - 100`. -/
def totalLabelX : Int := rContentWidth - u 100

/-- `totalValueX = pageWidth - margin - 5`. -/
def totalValueX : Int := rPageWidth - rMargin - u 5

/-- `serials.join(', ')`. -/
def joinComma : List String → String
  | [] => ""
  | [s] => s
  | s :: rest => s ++ ", " ++ joinComma rest

/-- `String(it.name || ... || '')`. -/
def receiptItemName (it : ReceiptItem) : String := jsOrS it.name ""

/-- ASCII lowercasing of one character. -/
def asciiLower (c : Char) : Char :=
  if 'A' ≤ c ∧ c ≤ 'Z' then Char.ofNat (c.toNat + 32) else c

/-- `s.toLowerCase()` for the ASCII payment-method strings. -/
def strToLower (s : String) : String := String.mk (s.data.map asciiLower)

/-- The address cell fallback (line 597): `address ||
(shippingOption === 'In-Store Pickup' ? 'In-Store Pickup' : 'N/A')`. -/
def receiptAddressText (address : Option String) (shippingOption : String) : String :=
  jsOrS address (if shippingOption = "In-Store Pickup" then "In-Store Pickup" else "N/A")

/-- Record of one emitted receipt item row: page, starting y, computed
row height and the printed line amount `unit * qty` (cents). -/
structure RRow where
  page : Nat
  y : Int
  height : Int
  amt : Int
deriving DecidableEq, Repr

/-- State returned by the receipt item loop. -/
structure RcptLoopOut where
  y : Int
  page : Nat
  cmds : List Cmd
  rows : List RRow
deriving Repr

/-- The item loop of `generateSaleReceipt` (lines 637-684).  The page
break fires on `y > 750` BEFORE the row height is computed and without
regard to it; the row height is
`max(minRowHeight, nameLines·LINE_HEIGHT + serialLines·SMALL_LINE_HEIGHT
+ 10)` and the row is then drawn in full at the current y. -/
def receiptRowsLoop (wrap : String → Int → List String) :
    List ReceiptItem → Int → Nat → RcptLoopOut
  | [], y, p => ⟨y, p, [], []⟩
  | it :: rest, y, p =>
    let broke := u 750 < y
    let p1 := if broke then p + 1 else p
    let y1 := if broke then rMargin else y
    let brk := if broke then [Cmd.newPage p1] else []
    let nameLines := wrap (receiptItemName it) colNameWidth
    let serialLines :=
      if 0 < it.serialNumbers.length then
        wrap ("Serials: " ++ joinComma it.serialNumbers) (colNameWidth - u 5)
      else []
    let nameHeight := (nameLines.length : Int) * rLineHeight
    let serialHeight := (serialLines.length : Int) * rSmallLineHeight
    let rowHeight := max rMinRowHeight (nameHeight + serialHeight + u 10)
    let yText := y1 + u 16
    let qty := jsInt it.quantity
    let unit := jsInt it.price
    let sub := unit * qty
    let rowCmds :=
      [Cmd.textC p1 (String.intercalate "\n" nameLines) colNameLeft yText] ++
      (if 0 < serialLines.length then
        [Cmd.textC p1 (String.intercalate "\n" serialLines) (colNameLeft + u 5)
          (yText + nameHeight)]
       else []) ++
      [Cmd.textC p1 (toString qty) colQtyCenter yText,
       Cmd.textC p1 (peso (some unit)) colUnitRight yText,
       Cmd.textC p1 (peso (some sub)) colAmtRight yText,
       Cmd.lineC p1 rMargin (y1 + rowHeight) (rPageWidth - rMargin) (y1 + rowHeight)]
    let out := receiptRowsLoop wrap rest (y1 + rowHeight) p1
    ⟨out.y, out.page, brk ++ rowCmds ++ out.cmds, ⟨p1, y1, rowHeight, sub⟩ :: out.rows⟩

/-- Result of a receipt render.  `endY` is the cursor position after the
item loop, where the totals section starts. -/
structure ReceiptResult where
  cmds : List Cmd
  rows : List RRow
  pageCount : Nat
  endY : Int
deriving Repr

/-- The totals section of the receipt (lines 686-715): `Subtotal` and
`TOTAL` both print `peso(totalAmount)` — the parameter as passed, not a
sum over the item rows; the cash-tendered/change block appears only for a
cash payment with positive tendered amount. -/
def receiptTotalsCmds (p : Nat) (yEnd : Int) (totalAmount : Option Int)
    (paymentMethod : String) (tenderedAmount changeAmount : Int) : List Cmd :=
  let yT0 := yEnd + u 15
  let isCash := (strToLower paymentMethod == "cash") && decide (0 < tenderedAmount)
  let yCash := yT0 + rLineHeight
  let yTotal := if isCash then yCash + rLineHeight + u 18 else yT0 + rLineHeight
  let yThank := max (yTotal + 2 * rLineHeight) (u 800)
  [Cmd.textC p "Subtotal:" totalLabelX yT0,
   Cmd.textC p (peso totalAmount) totalValueX yT0] ++
  (if isCash then
    [Cmd.textC p "Cash Tendered:" totalLabelX yCash,
     Cmd.textC p (peso (some tenderedAmount)) totalValueX yCash,
     Cmd.textC p "Change:" totalLabelX (yCash + rLineHeight),
     Cmd.textC p (peso (some changeAmount)) totalValueX (yCash + rLineHeight)]
   else []) ++
  [Cmd.textC p "TOTAL:" totalLabelX yTotal,
   Cmd.textC p (peso totalAmount) totalValueX yTotal,
   Cmd.textC p "Thank you for your purchase!" (rPageWidth / 2) yThank]

/-- Embedding of `generateSaleReceipt` (lines 523-718): header block,
info panels, table header, item loop, then the totals section in which
both the `Subtotal` and `TOTAL` lines print `peso(totalAmount)`, the
parameter as passed. -/
def receiptRender (wrap : String → Int → List String) (inp : ReceiptInput) :
    ReceiptResult :=
  let yTitle := if inp.hasLogo then rMargin + u 69 else rMargin
  let logoCmds :=
    if inp.hasLogo then [Cmd.imageC 1 ((rPageWidth - u 80) / 2) rMargin (u 80) (u 59)]
    else []
  let yAddr := yTitle + rLineHeight
  let yPhone := yAddr + rLineHeight
  let yOR := yPhone + u 25
  let yInfo := yOR + u 30
  let headCmds :=
    [Cmd.textC 1 "TJC AUTO SUPPLY" (rPageWidth / 2) yTitle,
     Cmd.textC 1 "General Hizon Avenue, Santa Lucia, City of San Fernando, Pampanga"
       (rPageWidth / 2) yAddr,
     Cmd.textC 1 "0912 345 6789 | tjcautosupply@gmail.com" (rPageWidth / 2) yPhone,
     Cmd.textC 1 "OFFICIAL RECEIPT" (rPageWidth / 2) yOR]
  let addressLines := wrap (receiptAddressText inp.address inp.shippingOption) (rPanelWidth - u 70)
  let infoCmds :=
    [Cmd.textC 1 "Order #:" rMargin yInfo,
     Cmd.textC 1 "Customer:" rMargin (yInfo + rLineHeight),
     Cmd.textC 1 "Address:" rMargin (yInfo + 2 * rLineHeight),
     Cmd.textC 1 inp.saleNumber (rMargin + u 70) yInfo,
     Cmd.textC 1 (jsOrS inp.customerName "N/A") (rMargin + u 70) (yInfo + rLineHeight),
     Cmd.textC 1 (String.intercalate "\n" addressLines) (rMargin + u 70) (yInfo + 2 * rLineHeight),
     Cmd.textC 1 "Date:" panel2X yInfo,
     Cmd.textC 1 "Cashier:" panel2X (yInfo + rLineHeight),
     Cmd.textC 1 "Payment:" panel2X (yInfo + 2 * rLineHeight),
     Cmd.textC 1 inp.dateText (panel2X + u 80) yInfo,
     Cmd.textC 1 inp.cashierName (panel2X + u 80) (yInfo + rLineHeight),
     Cmd.textC 1 inp.paymentMethod (panel2X + u 80) (yInfo + 2 * rLineHeight)]
  let tableHeaderY :=
    max (yInfo + ((addressLines.length : Int) + 1) * rLineHeight) (yInfo + 3 * rLineHeight)
      + u 20
  let tblCmds :=
    [Cmd.rectC 1 rMargin tableHeaderY rContentWidth (u 20),
     Cmd.textC 1 "Item Description" colNameLeft (tableHeaderY + u 14),
     Cmd.textC 1 "Qty" colQtyCenter (tableHeaderY + u 14),
     Cmd.textC 1 "Unit Price" colUnitRight (tableHeaderY + u 14),
     Cmd.textC 1 "Amount" colAmtRight (tableHeaderY + u 14)]
  let lo := receiptRowsLoop wrap inp.items (tableHeaderY + u 20) 1
  { cmds := logoCmds ++ headCmds ++ infoCmds ++ tblCmds ++ lo.cmds ++
      receiptTotalsCmds lo.page lo.y inp.totalAmount inp.paymentMethod
        inp.tenderedAmount inp.changeAmount
    rows := lo.rows
    pageCount := lo.page
    endY := lo.y }

/-! ## Sales-report data preparation
(`ReportsController.getSalesReport`, `src/unnamed/part_000` lines 86-107) -/

/-- A sale item row as read from the database. -/
structure RawSaleItem where
  product_name : Option String
  brand : Option String
  quantity : Option Int
  returned_quantity : Option Int
  price : Option Int
deriving DecidableEq, Repr

/-- A mapped item as the controller sends it to the client. -/
structure MappedSaleItem where
  productName : String
  brand : String
  quantity : Int
  unitPrice : Int
  totalPrice : Int
deriving DecidableEq, Repr

/-- Net quantity `(item.quantity || 0) - (item.returned_quantity || 0)`. -/
def rawNetQty (it : RawSaleItem) : Int :=
  jsInt it.quantity - jsInt it.returned_quantity

/-- The body of the controller's `.map` (lines 87-105): `null` for a
fully-returned item (net quantity ≤ 0), otherwise the mapped row with the
price adjusted to the actual quantity. -/
def mapRawItem (it : RawSaleItem) : Option MappedSaleItem :=
  let returnedQty := jsInt it.returned_quantity
  let actualQty := jsInt it.quantity - returnedQty
  if actualQty ≤ 0 then none
  else some
    { productName := jsOrS it.product_name "N/A"
      brand := jsOrS it.brand "N/A"
      quantity := actualQty
      unitPrice := jsInt it.price
      totalPrice := jsInt it.price * actualQty }

/-- `.map(...).filter(item => item !== null)` (lines 86-106). -/
def processSaleItems (items : List RawSaleItem) : List MappedSaleItem :=
  (items.map mapRawItem).filterMap id

/-- The kept row of an item with positive net quantity (the non-`null`
branch of `mapRawItem`, written out). -/
def mkMappedItem (it : RawSaleItem) : MappedSaleItem :=
  { productName := jsOrS it.product_name "N/A"
    brand := jsOrS it.brand "N/A"
    quantity := rawNetQty it
    unitPrice := jsInt it.price
    totalPrice := jsInt it.price * rawNetQty it }

/-! ## Concrete inputs used in closed evaluations -/

/-- Split a character list into chunks of ten. -/
def chunkTen : List Char → List Char → List (List Char)
  | [], acc => if acc.isEmpty then [] else [acc.reverse]
  | c :: rest, acc =>
    if acc.length = 9 then (c :: acc).reverse :: chunkTen rest []
    else chunkTen rest (c :: acc)

/-- A concrete wrapping function: one line per ten characters, ignoring
the pixel width (the Drawing Surface's wrap primitive is an external
collaborator; any function of this type is admissible). -/
def wrapTen (s : String) : Int → List String :=
  fun _ => (chunkTen s.data []).map String.mk

/-- A short receipt item: one wrapped name line, row height 25. -/
def fillerReceiptItem : ReceiptItem :=
  { name := some "Part", serialNumbers := [], quantity := some 1, price := some 1000 }

/-- A 160-character product name (16 lines under `wrapTen`). -/
def bigName160 : String :=
  "ABCDEFGHIJABCDEFGHIJABCDEFGHIJABCDEFGHIJABCDEFGHIJABCDEFGHIJABCDEFGHIJABCDEFGHIJABCDEFGHIJABCDEFGHIJABCDEFGHIJABCDEFGHIJABCDEFGHIJABCDEFGHIJABCDEFGHIJABCDEFGHIJ"

/-- An 80-character product name (8 lines under `wrapTen`). -/
def bigName80 : String :=
  "ABCDEFGHIJABCDEFGHIJABCDEFGHIJABCDEFGHIJABCDEFGHIJABCDEFGHIJABCDEFGHIJABCDEFGHIJ"

/-- A receipt item whose name wraps to 16 lines: row height 202. -/
def tallReceiptItem : ReceiptItem :=
  { name := some bigName160, serialNumbers := [], quantity := some 1, price := some 1000 }

/-- A receipt item whose name wraps to 8 lines: row height 106. -/
def wideReceiptItem : ReceiptItem :=
  { name := some bigName80, serialNumbers := [], quantity := some 1, price := some 1000 }

/-- Ten items arranged so that the ninth row starts at y = 749 with row
height 106 (overrunning the 841.89 pt page) and the tenth row forces a
second page. -/
def overflowReceiptItems : List ReceiptItem :=
  [tallReceiptItem, tallReceiptItem] ++ List.replicate 6 fillerReceiptItem ++
    [wideReceiptItem, fillerReceiptItem]

/-- A receipt input whose item rows overflow onto a second page. -/
def overflowReceiptInput : ReceiptInput :=
  { saleNumber := "S-0001", customerName := some "Juan", items := overflowReceiptItems
    totalAmount := some 99900, paymentMethod := "Cash", tenderedAmount := 0
    changeAmount := 0, address := none, shippingOption := "In-Store Pickup"
    hasLogo := false, dateText := "January 1, 2025", cashierName := "Admin" }

/-- An order with two distinct products tied at quantity 5. -/
def tieOrder : SalesOrder :=
  { orderId := "O-1", customerName := some "Cust", orderDate := some "2025-01-01"
    status := some "Completed", totalAmount := some 10000
    items := [{ productName := "Alpha", quantity := some 5, unitPrice := some 1000,
                totalPrice := some 5000 },
              { productName := "Beta", quantity := some 5, unitPrice := some 1000,
                totalPrice := some 5000 }] }

/-- An order with an allowed status, a nonzero total and an empty `items`
array: its flattened row set is empty but it still counts as a
transaction. -/
def itemlessOrder : SalesOrder :=
  { orderId := "O-2", customerName := some "Cust", orderDate := some "2025-01-01"
    status := some "Completed", totalAmount := some 10000, items := [] }

/-- A receipt whose single line amount (PHP 10.00) does not sum to the
`totalAmount` parameter (PHP 999.00). -/
def mismatchReceiptInput : ReceiptInput :=
  { saleNumber := "S-0002", customerName := none
    items := [{ name := some "Widget", serialNumbers := [], quantity := some 1,
                price := some 1000 }]
    totalAmount := some 99900, paymentMethod := "Cash", tenderedAmount := 0
    changeAmount := 0, address := some "123 Road", shippingOption := "Delivery"
    hasLogo := false, dateText := "January 1, 2025", cashierName := "Admin" }

/-- Raw sale items with net quantities 3, 0 and -3: only the first
survives the controller's fully-returned filter. -/
def c7Raws : List RawSaleItem :=
  [{ product_name := some "X", brand := some "B", quantity := some 5,
     returned_quantity := some 2, price := some 1000 },
   { product_name := some "Y", brand := some "B", quantity := some 3,
     returned_quantity := some 3, price := some 500 },
   { product_name := some "Z", brand := some "B", quantity := some 1,
     returned_quantity := some 4, price := some 700 }]

/-! ## Helper lemmas -/

/-- Every row emitted by the sales row loop is drawn at `y ≤ 270`: either
no break fired (so the running y was at most 270) or the break reset it
to 28. -/
theorem salesRowsLoop_y_le (rows : List FlatRow) :
    ∀ (idx : Nat) (y : Int) (p : Nat) (gt : Int) (r : ERow),
      r ∈ (salesRowsLoop rows idx y p gt).rows → r.y ≤ u 270 := by
  induction rows with
  | nil =>
    intro idx y p gt r hr
    simp [salesRowsLoop] at hr
  | cons a rest ih =>
    intro idx y p gt r hr
    simp only [salesRowsLoop] at hr
    rcases List.mem_cons.mp hr with h | h
    · subst h
      by_cases hy : u 270 < y
      · simp only [if_pos hy, u]
        omega
      · simp only [if_neg hy, u] at *
        omega
    · exact ih _ _ _ _ r h

/-- Every row emitted by the receipt item loop is begun at `y ≤ 750`:
either no break fired or the break reset y to the margin. -/
theorem receiptRowsLoop_y_le (wrap : String → Int → List String)
    (items : List ReceiptItem) :
    ∀ (y : Int) (p : Nat) (r : RRow),
      r ∈ (receiptRowsLoop wrap items y p).rows → r.y ≤ u 750 := by
  induction items with
  | nil =>
    intro y p r hr
    simp [receiptRowsLoop] at hr
  | cons a rest ih =>
    intro y p r hr
    simp only [receiptRowsLoop] at hr
    rcases List.mem_cons.mp hr with h | h
    · subst h
      by_cases hy : u 750 < y
      · simp only [if_pos hy, rMargin, u]
        omega
      · simp only [if_neg hy, u] at *
        omega
    · exact ih _ _ r h

/-- The grand total accumulated by the sales row loop is the seed plus the
sum of the amounts recorded for the emitted rows. -/
theorem salesRowsLoop_sum (rows : List FlatRow) :
    ∀ (idx : Nat) (y : Int) (p : Nat) (gt : Int),
      (salesRowsLoop rows idx y p gt).grandTotal
        = gt + (((salesRowsLoop rows idx y p gt).rows.map ERow.amt).sum) := by
  induction rows with
  | nil => intro idx y p gt; simp [salesRowsLoop]
  | cons a rest ih =>
    intro idx y p gt
    simp only [salesRowsLoop, List.map_cons, List.sum_cons]
    rw [ih]
    ring

/-- Each emitted row's Total-column text, carrying its coerced
`totalPrice`, is among the loop's draw commands at x = 160 and the row's
baseline. -/
theorem salesRowsLoop_total_text (rows : List FlatRow) :
    ∀ (idx : Nat) (y : Int) (p : Nat) (gt : Int) (r : ERow),
      r ∈ (salesRowsLoop rows idx y p gt).rows →
        Cmd.textC r.page (formatCurrency (some r.amt)) (u 160) r.y
          ∈ (salesRowsLoop rows idx y p gt).cmds := by
  induction rows with
  | nil =>
    intro idx y p gt r hr
    simp [salesRowsLoop] at hr
  | cons a rest ih =>
    intro idx y p gt r hr
    simp only [salesRowsLoop] at hr ⊢
    rcases List.mem_cons.mp hr with h | h
    · subst h
      simp [salesRowCmds, List.mem_append]
    · exact List.mem_append_right _ (ih _ _ _ _ r h)

/-- The header-redraw check skips over a segment that contains no page
transition. -/
theorem headerAfterNewPage_append (l1 l2 : List Cmd)
    (h : ∀ c ∈ l1, c.isNewPage = false) :
    headerAfterNewPage (l1 ++ l2) = headerAfterNewPage l2 := by
  induction l1 with
  | nil => rfl
  | cons a t ih =>
    have ha := h a (List.mem_cons_self a t)
    have ht : ∀ c ∈ t, c.isNewPage = false := fun c hc => h c (List.mem_cons_of_mem a hc)
    cases a with
    | newPage p => simp [Cmd.isNewPage] at ha
    | textC p s x y => simpa only [List.cons_append, headerAfterNewPage] using ih ht
    | lineC p a b c d => simpa only [List.cons_append, headerAfterNewPage] using ih ht
    | rectC p a b c d => simpa only [List.cons_append, headerAfterNewPage] using ih ht
    | imageC p a b c d => simpa only [List.cons_append, headerAfterNewPage] using ih ht

/-- The column-header block contains no page transition. -/
theorem salesHeaderBlock_no_newPage (p : Nat) (y : Int) :
    ∀ c ∈ salesHeaderBlock p y, c.isNewPage = false := by
  intro c hc
  simp only [salesHeaderBlock, List.mem_cons, List.not_mem_nil, or_false] at hc
  rcases hc with h | h | h | h | h | h <;> subst h <;> rfl

/-- A data row's commands contain no page transition. -/
theorem salesRowCmds_no_newPage (p idx : Nat) (r : FlatRow) (y : Int) :
    ∀ c ∈ salesRowCmds p idx r y, c.isNewPage = false := by
  intro c hc
  by_cases hidx : idx % 2 = 0 <;>
    simp only [salesRowCmds, hidx, List.mem_append, List.mem_cons,
      List.nil_append, List.not_mem_nil, false_or, or_false, reduceIte] at hc
  · rcases hc with h | h | h | h | h | h <;> subst h <;> rfl
  · rcases hc with h | h | h | h | h <;> subst h <;> rfl

/-- Taking six commands from the front of a header block recovers it. -/
theorem take_six_headerBlock (p : Nat) (y : Int) (l : List Cmd) :
    (salesHeaderBlock p y ++ l).take 6 = salesHeaderBlock p y := rfl

/-- After a page break, the loop emits the page transition immediately
followed by the header block, so the redraw check passes and continues
behind the appended segments. -/
theorem headerAfterNewPage_break (p : Nat) (l1 l2 : List Cmd)
    (h1 : ∀ c ∈ l1, c.isNewPage = false) :
    headerAfterNewPage ((Cmd.newPage p :: salesHeaderBlock p (u 20)) ++ l1 ++ l2)
      = headerAfterNewPage l2 := by
  have e1 : (Cmd.newPage p :: salesHeaderBlock p (u 20)) ++ l1 ++ l2
      = Cmd.newPage p :: (salesHeaderBlock p (u 20) ++ (l1 ++ l2)) := by
    simp
  rw [e1]
  simp only [headerAfterNewPage, take_six_headerBlock, decide_eq_true_eq]
  simpa using headerAfterNewPage_append l1 l2 h1

/-- Every page transition emitted by the sales row loop is immediately
followed by the redrawn column-header block at the top margin. -/
theorem salesRowsLoop_headerOk (rows : List FlatRow) :
    ∀ (idx : Nat) (y : Int) (p : Nat) (gt : Int),
      headerAfterNewPage (salesRowsLoop rows idx y p gt).cmds = true := by
  induction rows with
  | nil => intro idx y p gt; rfl
  | cons a rest ih =>
    intro idx y p gt
    simp only [salesRowsLoop]
    by_cases hy : u 270 < y
    · simp only [if_pos hy]
      rw [headerAfterNewPage_break _ _ _ (salesRowCmds_no_newPage _ _ _ _)]
      exact ih _ _ _ _
    · simp only [if_neg hy]
      rw [List.nil_append, headerAfterNewPage_append _ _ (salesRowCmds_no_newPage _ _ _ _)]
      exact ih _ _ _ _

/-- Lookup of a present key returns its count. -/
theorem lookupCount_mem (l : List (String × Int)) (k : String)
    (h : k ∈ l.map Prod.fst) : lookupCount l k = some (cVal l k) := by
  induction l with
  | nil => simp at h
  | cons a t ih =>
    obtain ⟨k1, q1⟩ := a
    by_cases hk : k1 = k
    · simp [lookupCount, cVal, hk]
    · simp only [List.map_cons, List.mem_cons] at h
      rcases h with h | h
      · exact absurd h.symm hk
      · have e1 : lookupCount ((k1, q1) :: t) k = lookupCount t k := by
          simp [lookupCount, hk]
        have e2 : cVal ((k1, q1) :: t) k = cVal t k := by
          simp [cVal, lookupCount, hk]
        rw [e1, e2]
        exact ih h

/-- Lookup of an absent key fails (JS `undefined`). -/
theorem lookupCount_not_mem (l : List (String × Int)) (k : String)
    (h : k ∉ l.map Prod.fst) : lookupCount l k = none := by
  induction l with
  | nil => rfl
  | cons a t ih =>
    obtain ⟨k1, q1⟩ := a
    simp only [List.map_cons, List.mem_cons, not_or] at h
    obtain ⟨h1, h2⟩ := h
    have hne : ¬(k1 = k) := fun e => h1 e.symm
    simp [lookupCount, hne, ih h2]

/-- The seeded last-argmax satisfies the fold recursion. -/
theorem lastArgmaxD_cons_eq (c : String → Int) (acc k : String) (t : List String) :
    lastArgmaxD c acc (k :: t)
      = lastArgmaxD c (if c k < c acc then acc else k) t := by
  rcases h : lastArgmax c t with _ | m
  · simp only [lastArgmaxD, lastArgmax, h]
  · by_cases hmk : c m < c k
    · simp only [lastArgmaxD, lastArgmax, h, if_pos hmk]
      split_ifs <;> first | rfl | omega
    · simp only [lastArgmaxD, lastArgmax, h, if_neg hmk]
      split_ifs <;> first | rfl | omega

/-- The pure left fold whose ties go to the newcomer computes the last
argmax. -/
theorem foldl_max_lastArgmaxD (c : String → Int) (ks : List String) :
    ∀ acc : String,
      List.foldl (fun a b => if c b < c a then a else b) acc ks
        = lastArgmaxD c acc ks := by
  induction ks with
  | nil => intro acc; rfl
  | cons k t ih =>
    intro acc
    rw [List.foldl_cons, ih, lastArgmaxD_cons_eq]

/-- Seeding the fold with the first key agrees with `lastArgmax` over the
whole list. -/
theorem lastArgmaxD_cons (c : String → Int) (k : String) (ks : List String) :
    lastArgmaxD c k ks = (lastArgmax c (k :: ks)).getD "N/A" := by
  rcases h : lastArgmax c ks with _ | m <;>
    simp only [lastArgmaxD, lastArgmax, h] <;>
    first | rfl | (split_ifs <;> rfl)

/-- A nonempty list always has a last argmax. -/
theorem lastArgmax_cons_some (c : String → Int) (k : String) (t : List String) :
    ∃ m, lastArgmax c (k :: t) = some m := by
  rcases h : lastArgmax c t with _ | m0
  · exact ⟨k, by simp [lastArgmax, h]⟩
  · by_cases hc : c m0 < c k
    · exact ⟨k, by simp [lastArgmax, h, hc]⟩
    · exact ⟨m0, by simp [lastArgmax, h, hc]⟩

/-- Only the empty list has no last argmax. -/
theorem lastArgmax_eq_none (c : String → Int) (t : List String)
    (h : lastArgmax c t = none) : t = [] := by
  cases t with
  | nil => rfl
  | cons b tb =>
    obtain ⟨m, hm⟩ := lastArgmax_cons_some c b tb
    rw [hm] at h
    simp at h

/-- `lastArgmax` returns a member whose count dominates the list. -/
theorem lastArgmax_spec (c : String → Int) :
    ∀ (ks : List String) (m : String),
      lastArgmax c ks = some m → m ∈ ks ∧ ∀ x ∈ ks, c x ≤ c m := by
  intro ks
  induction ks with
  | nil => intro m h; simp [lastArgmax] at h
  | cons k t ih =>
    intro m h
    rcases ht : lastArgmax c t with _ | m0
    · have htnil := lastArgmax_eq_none c t ht
      subst htnil
      simp only [lastArgmax] at h
      have hk : k = m := by simpa using h
      subst hk
      refine ⟨List.mem_cons_self k [], ?_⟩
      intro x hx
      have hxk : x = k := by simpa using hx
      subst hxk
      omega
    · simp only [lastArgmax, ht] at h
      obtain ⟨hm0, hmax⟩ := ih m0 ht
      by_cases hc : c m0 < c k
      · rw [if_pos hc] at h
        have hk : k = m := by simpa using h
        subst hk
        refine ⟨List.mem_cons_self k t, ?_⟩
        intro x hx
        rcases List.mem_cons.mp hx with hxx | hxx
        · subst hxx; omega
        · have := hmax x hxx; omega
      · rw [if_neg hc] at h
        have hm : m0 = m := by simpa using h
        subst hm
        refine ⟨List.mem_cons_of_mem k hm0, ?_⟩
        intro x hx
        rcases List.mem_cons.mp hx with hxx | hxx
        · subst hxx; omega
        · exact hmax x hxx

/-- On keys of the tally, the JS fold of `bestSellingOf` agrees with the
pure max fold. -/
theorem bestSelling_fold_pure (l : List (String × Int)) :
    ∀ (ks : List String) (acc : String), (∀ b ∈ ks, b ∈ l.map Prod.fst) →
      acc ∈ l.map Prod.fst →
      List.foldl
        (fun a b => if jsGtI (lookupCount l a) (lookupCount l b) then a else b) acc ks
      = List.foldl (fun a b => if cVal l b < cVal l a then a else b) acc ks := by
  intro ks
  induction ks with
  | nil => intro acc _ _; rfl
  | cons b t ih =>
    intro acc hks hacc
    have hb : b ∈ l.map Prod.fst := hks b (List.mem_cons_self b t)
    have ht : ∀ x ∈ t, x ∈ l.map Prod.fst := fun x hx => hks x (List.mem_cons_of_mem b hx)
    rw [List.foldl_cons, List.foldl_cons]
    have hstep : (if jsGtI (lookupCount l acc) (lookupCount l b) then acc else b)
        = (if cVal l b < cVal l acc then acc else b) := by
      rw [lookupCount_mem l acc hacc, lookupCount_mem l b hb]
      by_cases h : cVal l b < cVal l acc <;> simp [jsGtI, h]
    rw [hstep]
    refine ih _ ht ?_
    by_cases h : cVal l b < cVal l acc <;> simp [h, hacc, hb]

/-- `processSaleItems` filters by positive net quantity, then maps. -/
theorem processSaleItems_eq (items : List RawSaleItem) :
    processSaleItems items
      = (items.filter (fun it => decide (0 < rawNetQty it))).map mkMappedItem := by
  induction items with
  | nil => rfl
  | cons a t ih =>
    by_cases h : 0 < rawNetQty a
    · have h2 : jsInt a.returned_quantity < jsInt a.quantity := by
        simp only [rawNetQty] at h; omega
      have hcond : ¬(jsInt a.quantity - jsInt a.returned_quantity ≤ 0) := by omega
      simp only [processSaleItems, List.map_cons, List.filterMap_cons] at ih ⊢
      simp [mapRawItem, List.filter_cons, h2, hcond, mkMappedItem, rawNetQty, ih]
    · have h2 : ¬(jsInt a.returned_quantity < jsInt a.quantity) := by
        simp only [rawNetQty] at h; omega
      have hcond : jsInt a.quantity - jsInt a.returned_quantity ≤ 0 := by omega
      simp only [processSaleItems, List.map_cons, List.filterMap_cons] at ih ⊢
      simp [mapRawItem, List.filter_cons, h, h2, hcond, ih]

/-- The rows of a sales render are those of its row loop. -/
theorem salesRender_rows (hasLogo : Bool) (sd : Option (List SalesOrder))
    (pt an gd : String) :
    (salesRender hasLogo sd pt an gd).rows
      = (salesRowsLoop (flattenSales (sd.getD []))
          0 ((if hasLogo then u 20 + u 27 else u 20) + u 7 + u 10 + u 8) 1 0).rows := rfl

/-- The grand total of a sales render is that of its row loop. -/
theorem salesRender_grandTotal (hasLogo : Bool) (sd : Option (List SalesOrder))
    (pt an gd : String) :
    (salesRender hasLogo sd pt an gd).grandTotal
      = (salesRowsLoop (flattenSales (sd.getD []))
          0 ((if hasLogo then u 20 + u 27 else u 20) + u 7 + u 10 + u 8) 1 0).grandTotal := rfl

/-- The printed grand-total text renders the loop's accumulated total. -/
theorem salesRender_grandTotalText (hasLogo : Bool) (sd : Option (List SalesOrder))
    (pt an gd : String) :
    (salesRender hasLogo sd pt an gd).grandTotalText
      = formatCurrency (some ((salesRowsLoop (flattenSales (sd.getD []))
          0 ((if hasLogo then u 20 + u 27 else u 20) + u 7 + u 10 + u 8) 1 0).grandTotal)) := rfl

/-- Commands emitted by the row loop appear in the full render's command
list. -/
theorem salesRender_cmds_sub (hasLogo : Bool) (sd : Option (List SalesOrder))
    (pt an gd : String) (c : Cmd)
    (hc : c ∈ (salesRowsLoop (flattenSales (sd.getD []))
        0 ((if hasLogo then u 20 + u 27 else u 20) + u 7 + u 10 + u 8) 1 0).cmds) :
    c ∈ (salesRender hasLogo sd pt an gd).cmds := by
  simp only [salesRender, List.mem_append]
  tauto

/-- Each receipt row's recorded amount is `unit * qty` of its item, in
input order. -/
theorem receiptRowsLoop_amts (wrap : String → Int → List String)
    (items : List ReceiptItem) :
    ∀ (y : Int) (p : Nat),
      (receiptRowsLoop wrap items y p).rows.map RRow.amt
        = items.map (fun it => jsInt it.price * jsInt it.quantity) := by
  induction items with
  | nil => intro y p; rfl
  | cons a rest ih =>
    intro y p
    simp only [receiptRowsLoop, List.map_cons]
    rw [ih]

/-- A nonempty string has positive length. -/
theorem strLength_pos (t : String) (h : ¬t = "") : 0 < t.length := by
  cases t with
  | mk l =>
    cases l with
    | nil => exact absurd rfl h
    | cons c cs => simp [String.length]

/-- Digits of `Nat.digitChar` below ten are decimal digits. -/
theorem digitChar_isDigit (n : Nat) (h : n < 10) : (Nat.digitChar n).isDigit = true := by
  interval_cases n <;> decide

/-! ## Claims -/

/-- C1 (counterexample): in `generateSaleReceipt` the page-break check
`y > 750` ignores the row's computed height, so the ninth row of this
concrete receipt is begun at y = 749 (no break) with computed height 106
and extends to 855, beyond the 841.89 pt page height — contradicting the
claim that `cursor.y + rowHeight` never exceeds the page threshold for an
emitted row. -/
theorem C1_receipt_overflow_counterexample :
    ((receiptRender wrapTen overflowReceiptInput).rows)[8]? =
      some { page := 1, y := u 749, height := u 106, amt := 1000 } ∧
    u 749 ≤ u 750 ∧ rPageHeight < u 749 + u 106 := by
  refine ⟨by decide, by decide, by decide⟩

/-- C1 (amended): the break checks compare only the cursor y against a
fixed limit, before the row is drawn.  In `generateSalesReportPDF`, rows
have fixed height 6 and the check `y > 270` guarantees every emitted row
satisfies `y + 6 ≤ 276`, below the footer — for fixed-height rows this is
the claimed policy with threshold 276.  In `generateSaleReceipt` the check
`y > 750` only bounds the starting y of every emitted row by 750; the
variable row height is not consulted, so a tall row may overrun the page
(rows are still never split across pages — each row's commands are
emitted on a single page). -/
theorem C1_page_break_amended :
    (∀ (hasLogo : Bool) (sd : Option (List SalesOrder)) (pt an gd : String) (r : ERow),
        r ∈ (salesRender hasLogo sd pt an gd).rows → r.y + u 6 ≤ u 276) ∧
    (∀ (wrap : String → Int → List String) (inp : ReceiptInput) (r : RRow),
        r ∈ (receiptRender wrap inp).rows → r.y ≤ u 750) := by
  constructor
  · intro hasLogo sd pt an gd r hr
    rw [salesRender_rows] at hr
    have h := salesRowsLoop_y_le (flattenSales (sd.getD [])) 0
      ((if hasLogo then u 20 + u 27 else u 20) + u 7 + u 10 + u 8) 1 0 r hr
    simp only [u] at h ⊢
    omega
  · intro wrap inp r hr
    exact receiptRowsLoop_y_le wrap inp.items _ 1 r hr

/-- Witness for C1: a concrete sales row and a concrete receipt row, with
the membership hypotheses discharged by evaluation. -/
theorem C1_page_break_witness :
    ((⟨1, u 45, 5000⟩ : ERow) ∈ (salesRender false (some [tieOrder]) "p" "a" "d").rows ∧
      (⟨1, u 45, 5000⟩ : ERow).y + u 6 ≤ u 276) ∧
    ((⟨1, u 195, u 25, 1000⟩ : RRow) ∈ (receiptRender wrapTen mismatchReceiptInput).rows ∧
      (⟨1, u 195, u 25, 1000⟩ : RRow).y ≤ u 750) :=
  ⟨⟨by decide, C1_page_break_amended.1 false (some [tieOrder]) "p" "a" "d" _ (by decide)⟩,
   ⟨by decide, C1_page_break_amended.2 wrapTen mismatchReceiptInput _ (by decide)⟩⟩

/-- C2 (counterexample): with two products tied at quantity 5, the
reduce of line 198 reports the LATER key "Beta", not the
first-encountered "Alpha" — because `counts[a] > counts[b] ? a : b`
yields `b` on equality. -/
theorem C2_tie_break_counterexample :
    buildCounts (salesRender false (some [tieOrder]) "p" "a" "d").flattened
        = [("Alpha", 5), ("Beta", 5)] ∧
    (salesRender false (some [tieOrder]) "p" "a" "d").bestSellingProduct = "Beta" ∧
    decide ((salesRender false (some [tieOrder]) "p" "a" "d").bestSellingProduct
        = "Alpha") = false := by
  refine ⟨by decide, by decide, by decide⟩

/-- C2 (amended): when `"N/A"` is not itself a tallied key, the reported
best-selling product is the LAST key (in tally iteration order) attaining
the maximum tally — ties are broken toward the later key, not the
first-encountered one — and its tally dominates every key. -/
theorem C2_tie_break_amended :
    ∀ counts : List (String × Int), "N/A" ∉ counts.map Prod.fst →
      bestSellingOf counts
          = (lastArgmax (cVal counts) (counts.map Prod.fst)).getD "N/A" ∧
      ∀ k ∈ counts.map Prod.fst,
        cVal counts k ≤ cVal counts (bestSellingOf counts) := by
  intro counts hNA
  rcases hK : counts.map Prod.fst with _ | ⟨k, ks⟩
  · constructor
    · simp [bestSellingOf, hK, lastArgmax]
    · intro x hx; simp at hx
  · have hkmem : k ∈ counts.map Prod.fst := by
      rw [hK]; exact List.mem_cons_self k ks
    have hksmem : ∀ b ∈ ks, b ∈ counts.map Prod.fst := by
      intro b hb; rw [hK]; exact List.mem_cons_of_mem k hb
    have hbest : bestSellingOf counts = lastArgmaxD (cVal counts) k ks := by
      have hseed : (if jsGtI (lookupCount counts "N/A") (lookupCount counts k)
          then "N/A" else k) = k := by
        rw [lookupCount_not_mem counts "N/A" hNA]
        simp [jsGtI]
      calc bestSellingOf counts
          = List.foldl (fun a b =>
              if jsGtI (lookupCount counts a) (lookupCount counts b) then a else b)
              "N/A" (k :: ks) := by
            rw [bestSellingOf, hK]
        _ = List.foldl (fun a b =>
              if jsGtI (lookupCount counts a) (lookupCount counts b) then a else b)
              k ks := by
            simp only [List.foldl_cons]
            rw [hseed]
        _ = List.foldl (fun a b =>
              if cVal counts b < cVal counts a then a else b) k ks :=
            bestSelling_fold_pure counts ks k hksmem hkmem
        _ = lastArgmaxD (cVal counts) k ks := foldl_max_lastArgmaxD _ _ _
    constructor
    · rw [hbest, lastArgmaxD_cons]
    · intro x hx
      obtain ⟨m, hm⟩ := lastArgmax_cons_some (cVal counts) k ks
      obtain ⟨hmem, hmax⟩ := lastArgmax_spec (cVal counts) (k :: ks) m hm
      have hbm : bestSellingOf counts = m := by
        rw [hbest, lastArgmaxD_cons, hm]
        rfl
      rw [hbm]
      exact hmax x hx

/-- Witness for C2: the amended tie-break characterisation at a concrete
two-key tally. -/
theorem C2_tie_break_witness :
    decide ("N/A" ∈ ([("A", (3 : Int)), ("B", 7)]).map Prod.fst) = false ∧
    bestSellingOf [("A", (3 : Int)), ("B", 7)]
        = (lastArgmax (cVal [("A", (3 : Int)), ("B", 7)])
            (([("A", (3 : Int)), ("B", 7)]).map Prod.fst)).getD "N/A" :=
  ⟨by decide, (C2_tie_break_amended [("A", (3 : Int)), ("B", 7)] (by decide)).1⟩

/-- C3 (counterexample): when this concrete receipt's item rows overflow
onto page 2, page 2 carries item-row commands but no redrawn
"Item Description" column-header block, although page 1 has one — the
receipt generator never redraws its column header after a page break. -/
theorem C3_header_redraw_counterexample :
    (receiptRender wrapTen overflowReceiptInput).pageCount = 2 ∧
    ((receiptRender wrapTen overflowReceiptInput).cmds.filter
        (fun c => c.page == 2)).length = 11 ∧
    ((receiptRender wrapTen overflowReceiptInput).cmds.filter
        (fun c => c.page == 2)).all (fun c => !(c.isTextOf "Item Description")) = true ∧
    ((receiptRender wrapTen overflowReceiptInput).cmds.filter
        (fun c => c.page == 1)).any (fun c => c.isTextOf "Item Description") = true := by
  refine ⟨by decide, by decide, by decide, by decide⟩

/-- C3 (amended): in `generateSalesReportPDF`, every page started by the
ROW LOOP's page break begins with the redrawn column-header block — the
same five labels at the same column x-positions with the separator
beneath, at the top margin.  (Pages started by the grand-total or summary
overflow checks, and receipt continuation pages, do not redraw a column
header; the counterexample exhibits the receipt case.) -/
theorem C3_header_redraw_amended :
    ∀ (rows : List FlatRow) (idx : Nat) (y : Int) (p : Nat) (gt : Int),
      headerAfterNewPage (salesRowsLoop rows idx y p gt).cmds = true := by
  intro rows idx y p gt
  exact salesRowsLoop_headerOk rows idx y p gt

/-- C4 (confirmed): the sum of the per-row Total-column values across all
pages equals the grand total printed in the Grand Total row; each row's
Total-column text is among the emitted commands at x = 160. -/
theorem C4_grand_total :
    ∀ (hasLogo : Bool) (sd : Option (List SalesOrder)) (pt an gd : String),
      ((salesRender hasLogo sd pt an gd).rows.map ERow.amt).sum
          = (salesRender hasLogo sd pt an gd).grandTotal ∧
      (salesRender hasLogo sd pt an gd).grandTotalText
          = formatCurrency
              (some (((salesRender hasLogo sd pt an gd).rows.map ERow.amt).sum)) ∧
      ∀ r ∈ (salesRender hasLogo sd pt an gd).rows,
        Cmd.textC r.page (formatCurrency (some r.amt)) (u 160) r.y
          ∈ (salesRender hasLogo sd pt an gd).cmds := by
  intro hasLogo sd pt an gd
  have hsum : ((salesRender hasLogo sd pt an gd).rows.map ERow.amt).sum
      = (salesRender hasLogo sd pt an gd).grandTotal := by
    rw [salesRender_rows, salesRender_grandTotal, salesRowsLoop_sum]
    omega
  refine ⟨hsum, ?_, ?_⟩
  · rw [salesRender_grandTotalText, salesRender_rows, salesRowsLoop_sum]
    norm_num
  · intro r hr
    rw [salesRender_rows] at hr
    exact salesRender_cmds_sub hasLogo sd pt an gd _
      (salesRowsLoop_total_text _ _ _ _ _ r hr)

/-- Witness for C4: the grand-total identity and a concrete row's
Total-column command on a two-row report. -/
theorem C4_grand_total_witness :
    ((salesRender false (some [tieOrder]) "p" "a" "d").rows.map ERow.amt).sum
        = (salesRender false (some [tieOrder]) "p" "a" "d").grandTotal ∧
    (⟨1, u 45, 5000⟩ : ERow) ∈ (salesRender false (some [tieOrder]) "p" "a" "d").rows ∧
    Cmd.textC 1 (formatCurrency (some 5000)) (u 160) (u 45)
        ∈ (salesRender false (some [tieOrder]) "p" "a" "d").cmds :=
  ⟨(C4_grand_total false (some [tieOrder]) "p" "a" "d").1, by decide,
   (C4_grand_total false (some [tieOrder]) "p" "a" "d").2.2 ⟨1, u 45, 5000⟩ (by decide)⟩

/-- C5 (counterexample): an order with allowed status, nonzero
`totalAmount` and an empty `items` array yields an empty flattened row
set, yet the summary reports PHP 100.00 revenue and one transaction — the
aggregates are not all zero when only the flattened row set is empty. -/
theorem C5_empty_rows_counterexample :
    (salesRender false (some [itemlessOrder]) "p" "a" "d").flattened = [] ∧
    (salesRender false (some [itemlessOrder]) "p" "a" "d").bestSellingProduct = "N/A" ∧
    (salesRender false (some [itemlessOrder]) "p" "a" "d").totalRevenue = 10000 ∧
    decide ((salesRender false (some [itemlessOrder]) "p" "a" "d").totalRevenue = 0)
        = false ∧
    (salesRender false (some [itemlessOrder]) "p" "a" "d").totalTransactions = 1 ∧
    (salesRender false (some [itemlessOrder]) "p" "a" "d").pageCount = 1 := by
  refine ⟨by decide, by decide, by decide, by decide, by decide, by decide⟩

/-- C5 (amended): with an empty `salesData` input the generator does not
error: the best-selling key is the seeded default `"N/A"`, all aggregates
are zero, exactly one page is produced, and the header, column header,
summary line and footer are all emitted on page 1. -/
theorem C5_empty_rows_amended :
    (salesRender false (some []) "p" "a" "d").bestSellingProduct = "N/A" ∧
    (salesRender false (some []) "p" "a" "d").grandTotal = 0 ∧
    (salesRender false (some []) "p" "a" "d").totalRevenue = 0 ∧
    (salesRender false (some []) "p" "a" "d").totalItems = 0 ∧
    (salesRender false (some []) "p" "a" "d").totalTransactions = 0 ∧
    (salesRender false (some []) "p" "a" "d").avgTransactionValue = 0 ∧
    (salesRender false (some []) "p" "a" "d").pageCount = 1 ∧
    Cmd.textC 1 "Sales Report" (u 105) (u 20)
        ∈ (salesRender false (some []) "p" "a" "d").cmds ∧
    Cmd.textC 1 "Date" (u 15) (u 37)
        ∈ (salesRender false (some []) "p" "a" "d").cmds ∧
    Cmd.textC 1 "Best Selling Product: N/A" (u 115) (u 77)
        ∈ (salesRender false (some []) "p" "a" "d").cmds ∧
    Cmd.textC 1 "Page 1 of 1" (salesPageWidth - u 15) (u 285)
        ∈ (salesRender false (some []) "p" "a" "d").cmds := by
  refine ⟨by decide, by decide, by decide, by decide, by decide, by decide, by decide,
    by decide, by decide, by decide, by decide⟩

/-- C6 (confirmed): each rendered text field longer than its column's
limit becomes its first limit-many characters followed by `"..."`; a
present field at or under the limit is rendered unchanged.  Limits: 30
(sales product name), 35 (inventory product name), 20 (returns customer
name), 15 (returns reason). -/
theorem C6_truncation :
    ∀ s : String,
      (30 < s.length → salesProductNameText s = s.take 30 ++ "...") ∧
      (s.length ≤ 30 → salesProductNameText s = s) ∧
      (35 < s.length → inventoryProductNameText s = s.take 35 ++ "...") ∧
      (s.length ≤ 35 → inventoryProductNameText s = s) ∧
      (20 < s.length → returnsCustomerText (some s) = s.take 20 ++ "...") ∧
      (s ≠ "" → s.length ≤ 20 → returnsCustomerText (some s) = s) ∧
      (15 < s.length → returnsReasonText (some s) = s.take 15 ++ "...") ∧
      (s ≠ "" → s.length ≤ 15 → returnsReasonText (some s) = s) := by
  intro s
  refine ⟨?_, ?_, ?_, ?_, ?_, ?_, ?_, ?_⟩
  · intro h; simp [salesProductNameText, h]
  · intro h
    have h2 : ¬(30 < s.length) := by omega
    simp [salesProductNameText, h2]
  · intro h; simp [inventoryProductNameText, h]
  · intro h
    have h2 : ¬(35 < s.length) := by omega
    simp [inventoryProductNameText, h2]
  · intro h; simp [returnsCustomerText, h]
  · intro hne h
    have h2 : ¬(20 < s.length) := by omega
    simp [returnsCustomerText, h2, jsOrS, hne]
  · intro h; simp [returnsReasonText, h]
  · intro hne h
    have h2 : ¬(15 < s.length) := by omega
    simp [returnsReasonText, h2, jsOrS, hne]

/-- Witness for C6: truncation on an 80-character name and identity on a
short name. -/
theorem C6_truncation_witness :
    (30 < bigName80.length ∧ salesProductNameText bigName80 = bigName80.take 30 ++ "...") ∧
    (35 < bigName80.length ∧
      inventoryProductNameText bigName80 = bigName80.take 35 ++ "...") ∧
    (20 < bigName80.length ∧
      returnsCustomerText (some bigName80) = bigName80.take 20 ++ "...") ∧
    (15 < bigName80.length ∧
      returnsReasonText (some bigName80) = bigName80.take 15 ++ "...") ∧
    ("Part".length ≤ 30 ∧ salesProductNameText "Part" = "Part") ∧
    ("Part".length ≤ 20 ∧ returnsCustomerText (some "Part") = "Part") :=
  ⟨⟨by decide, (C6_truncation bigName80).1 (by decide)⟩,
   ⟨by decide, (C6_truncation bigName80).2.2.1 (by decide)⟩,
   ⟨by decide, (C6_truncation bigName80).2.2.2.2.1 (by decide)⟩,
   ⟨by decide, (C6_truncation bigName80).2.2.2.2.2.2.1 (by decide)⟩,
   ⟨by decide, (C6_truncation "Part").2.1 (by decide)⟩,
   ⟨by decide, (C6_truncation "Part").2.2.2.2.2.1 (by decide) (by decide)⟩⟩

/-- C7 (confirmed): the controller drops every sale item whose net
quantity (ordered minus returned) is zero or negative before the data is
sent to layout — the mapped list is exactly the positive-net items, so
every surviving row has positive quantity and a dropped item contributes
to no row and no running total. -/
theorem C7_net_quantity_filter :
    ∀ items : List RawSaleItem,
      processSaleItems items
          = (items.filter (fun it => decide (0 < rawNetQty it))).map mkMappedItem ∧
      ∀ m ∈ processSaleItems items, 0 < m.quantity := by
  intro items
  refine ⟨processSaleItems_eq items, ?_⟩
  intro m hm
  rw [processSaleItems_eq items] at hm
  obtain ⟨it, hit, rfl⟩ := List.mem_map.mp hm
  have hfil := List.mem_filter.mp hit
  have h2 : 0 < rawNetQty it := by simpa using hfil.2
  simpa [mkMappedItem] using h2

/-- Witness for C7: of three raw items with net quantities 3, 0 and -3,
only the first survives. -/
theorem C7_net_quantity_filter_witness :
    processSaleItems c7Raws
        = (c7Raws.filter (fun it => decide (0 < rawNetQty it))).map mkMappedItem ∧
    processSaleItems c7Raws = [(⟨"X", "B", 3, 1000, 3000⟩ : MappedSaleItem)] ∧
    (⟨"X", "B", 3, 1000, 3000⟩ : MappedSaleItem) ∈ processSaleItems c7Raws ∧
    0 < (⟨"X", "B", 3, 1000, 3000⟩ : MappedSaleItem).quantity :=
  ⟨(C7_net_quantity_filter c7Raws).1, by decide, by decide,
   (C7_net_quantity_filter c7Raws).2 _ (by decide)⟩

/-- C8 (confirmed): missing or empty optional fields render the
documented fallback literals exactly — `"N/A"` for returns customer name
and reason and for the receipt customer, `"In-Store Pickup"` for a
missing address under in-store pickup — and these cells are never
blank. -/
theorem C8_missing_field_fallbacks :
    returnsCustomerText none = "N/A" ∧ returnsCustomerText (some "") = "N/A" ∧
    returnsReasonText none = "N/A" ∧ returnsReasonText (some "") = "N/A" ∧
    receiptAddressText none "In-Store Pickup" = "In-Store Pickup" ∧
    receiptAddressText (some "") "In-Store Pickup" = "In-Store Pickup" ∧
    jsOrS none "N/A" = "N/A" ∧ jsOrS (some "") "N/A" = "N/A" ∧
    (∀ (a : Option String) (s : String), 0 < (receiptAddressText a s).length) ∧
    (∀ a : Option String, 0 < (returnsCustomerText a).length) ∧
    (∀ a : Option String, 0 < (returnsReasonText a).length) := by
  refine ⟨by decide, by decide, by decide, by decide, by decide, by decide,
    by decide, by decide, ?_, ?_, ?_⟩
  · intro a s
    rcases a with _ | t
    · simp only [receiptAddressText, jsOrS]
      split_ifs <;> decide
    · by_cases ht : t = ""
      · subst ht
        simp only [receiptAddressText, jsOrS, if_pos rfl]
        split_ifs <;> decide
      · simp only [receiptAddressText, jsOrS, if_neg ht]
        exact strLength_pos t ht
  · intro a
    rcases a with _ | t
    · decide
    · by_cases h20 : 20 < t.length
      · simp only [returnsCustomerText, if_pos h20]
        rw [String.length_append]
        have h3 : ("...").length = 3 := rfl
        omega
      · by_cases ht : t = ""
        · subst ht; decide
        · simp only [returnsCustomerText, if_neg h20, jsOrS, if_neg ht]
          exact strLength_pos t ht
  · intro a
    rcases a with _ | t
    · decide
    · by_cases h15 : 15 < t.length
      · simp only [returnsReasonText, if_pos h15]
        rw [String.length_append]
        have h3 : ("...").length = 3 := rfl
        omega
      · by_cases ht : t = ""
        · subst ht; decide
        · simp only [returnsReasonText, if_neg h15, jsOrS, if_neg ht]
          exact strLength_pos t ht

/-- C9 (confirmed): the currency formatters print the literal prefix
`"PHP "` and exactly two fraction digits (with thousands grouping, shown
at a concrete seven-digit amount) under a fixed locale; an absent or
non-numeric amount is coerced to zero and renders `"PHP 0.00"`; the
receipt's `peso` agrees with `formatCurrency`. -/
theorem C9_currency_format :
    (∀ x : Int, ∃ a b : String,
        formatCurrency (some x) = "PHP " ++ a ++ "." ++ b ∧
        b.length = 2 ∧ b.data.all Char.isDigit = true) ∧
    formatCurrency none = "PHP 0.00" ∧
    formatCurrency (some 0) = "PHP 0.00" ∧
    formatCurrency (some 123456789) = "PHP 1,234,567.89" ∧
    formatCurrency (some (-123450)) = "PHP -1,234.50" ∧
    peso none = "PHP 0.00" ∧
    peso (some 123456789) = "PHP 1,234,567.89" ∧
    ∀ x : Int, peso (some x) = formatCurrency (some x) := by
  refine ⟨?_, by decide, by decide, by decide, by decide, by decide, by decide,
    fun x => rfl⟩
  intro x
  refine ⟨(if jsInt (some x) < 0 then "-" else "")
      ++ groupDigits (toString ((jsInt (some x)).natAbs / 100)),
    pad2 ((jsInt (some x)).natAbs % 100), ?_, rfl, ?_⟩
  · simp [formatCurrency, centsToString, String.append_assoc]
  · simp only [pad2]
    show ([Nat.digitChar _, Nat.digitChar _].all Char.isDigit) = true
    simp only [List.all_cons, List.all_nil, Bool.and_true, Bool.and_eq_true]
    exact ⟨digitChar_isDigit _ (Nat.mod_lt _ (by norm_num)),
      digitChar_isDigit _ (Nat.mod_lt _ (by norm_num))⟩

/-- C10 (confirmed): the receipt's Subtotal and TOTAL lines both print
`peso(totalAmount)` — the parameter exactly as passed — while each item
row's Amount is `unit * qty`; the totals section is a suffix of the
render's command list; on a concrete input whose single line amount
(PHP 10.00) does not sum to `totalAmount` (PHP 999.00), the printed TOTAL
differs from the sum of the printed line amounts. -/
theorem C10_totals_as_passed :
    (∀ (wrap : String → Int → List String) (inp : ReceiptInput),
        (receiptRender wrap inp).rows.map RRow.amt
            = inp.items.map (fun it => jsInt it.price * jsInt it.quantity) ∧
        receiptTotalsCmds (receiptRender wrap inp).pageCount
            (receiptRender wrap inp).endY inp.totalAmount inp.paymentMethod
            inp.tenderedAmount inp.changeAmount <:+ (receiptRender wrap inp).cmds) ∧
    (∀ (p : Nat) (yEnd : Int) (ta : Option Int) (pm : String) (te ch : Int),
        Cmd.textC p "Subtotal:" totalLabelX (yEnd + u 15)
            ∈ receiptTotalsCmds p yEnd ta pm te ch ∧
        Cmd.textC p (peso ta) totalValueX (yEnd + u 15)
            ∈ receiptTotalsCmds p yEnd ta pm te ch ∧
        ∃ yT, Cmd.textC p "TOTAL:" totalLabelX yT ∈ receiptTotalsCmds p yEnd ta pm te ch ∧
          Cmd.textC p (peso ta) totalValueX yT ∈ receiptTotalsCmds p yEnd ta pm te ch) ∧
    ((receiptRender wrapTen mismatchReceiptInput).rows.map RRow.amt).sum = 1000 ∧
    jsInt mismatchReceiptInput.totalAmount = 99900 ∧
    peso mismatchReceiptInput.totalAmount = "PHP 999.00" ∧
    decide (((receiptRender wrapTen mismatchReceiptInput).rows.map RRow.amt).sum
        = jsInt mismatchReceiptInput.totalAmount) = false := by
  refine ⟨?_, ?_, by decide, by decide, by decide, by decide⟩
  · intro wrap inp
    refine ⟨receiptRowsLoop_amts wrap inp.items _ 1, ?_⟩
    exact ⟨_, rfl⟩
  · intro p yEnd ta pm te ch
    refine ⟨?_, ?_, ?_⟩
    · simp [receiptTotalsCmds, List.mem_append]
    · simp [receiptTotalsCmds, List.mem_append]
    · refine ⟨(if (strToLower pm == "cash") && decide (0 < te)
          then yEnd + u 15 + rLineHeight + rLineHeight + u 18
          else yEnd + u 15 + rLineHeight), ?_, ?_⟩ <;>
        by_cases hc : (strToLower pm == "cash") && decide (0 < te) <;>
        simp [receiptTotalsCmds, List.mem_append, hc]

end TJC
